import Mathlib

/-!
Verification development for the mspkit repository (MSP flight-controller
toolkit). The Python modules `mspkit/core.py` (MSP v1/v2 frame codec and
transport session) and `mspkit/mission.py` (waypoint mission synchronizer)
are shallowly embedded below.

Embedding conventions:
* Byte strings are `List Nat`; each Python byte is one list element.
* Python floats (latitude, longitude, altitude) are embedded as `ℚ`; the
  numeric literals `1e-6` and `0.1` of the source become `1/1000000` and
  `1/10`.
* Fallible operations return `Option`/`Bool` exactly where the Python code
  returns `None`/`False` or raises: a `none` result of an encoder models an
  exception raised before any byte is written.
* The serial transport is abstracted by a function `read : Nat → Option
  Waypoint` giving, per waypoint index, the decoded result of
  `Mission.get_waypoint`'s MSP_WP query (`none` when the device produces no
  valid waypoint response, i.e. missing/short/mismatched frames or an
  exception caught inside `get_waypoint`).
* Mission operations that talk to the device additionally return the
  ordered trace of MSP_SET_WP writes as a list of `(index, waypoint)`
  pairs, so that theorems can speak about which waypoints were sent.
-/

/-! ## Frame codec and transport session (`mspkit/core.py`) -/

/-- `ConnectionManager._calculate_checksum_v1`: XOR of size, code and every
payload byte, folded left starting from `size ^^^ code`. -/
def calculate_checksum_v1 (size code : Nat) (data : List Nat) : Nat :=
  data.foldl (fun chk b => chk ^^^ b) (size ^^^ code)

/-- One iteration of the inner bit loop of `ConnectionManager._calculate_crc_v2`:
shift left once, XOR with 0xD5 when bit 7 was set, and mask back to 8 bits. -/
def crcBitStep (crc : Nat) : Nat :=
  if crc &&& 0x80 ≠ 0 then ((crc <<< 1) ^^^ 0xD5) &&& 0xFF
  else (crc <<< 1) &&& 0xFF

/-- `ConnectionManager._calculate_crc_v2`: CRC-8/DVB-S2 over the byte list,
starting from 0; each byte is XORed in and then eight bit steps run. -/
def calculate_crc_v2 (data : List Nat) : Nat :=
  data.foldl (fun crc b => crcBitStep^[8] (crc ^^^ b)) 0

/-- Little-endian encoding of a 16-bit quantity, as produced by
`struct.pack` with format `<H`. -/
def u16le (n : Nat) : List Nat :=
  [n % 256, n / 256 % 256]

/-- `ConnectionManager.send_msp_v1`: builds `$M<` + size + code + payload +
checksum. A payload longer than 255 bytes raises (modelled `none`) before
anything is written; a code above 255 would make `bytes([size, code])`
raise, also before writing. -/
def send_msp_v1 (code : Nat) (data : List Nat) : Option (List Nat) :=
  if 255 < data.length then none
  else if 255 < code then none
  else some (36 :: 77 :: 60 :: data.length :: code ::
    (data ++ [calculate_checksum_v1 data.length code data]))

/-- `ConnectionManager.send_msp_v2`: builds `$X<` + flag 0 + code (u16 LE) +
size (u16 LE) + payload + CRC-8/DVB-S2 over flag‖code‖size‖payload. A
payload longer than 65535 bytes raises (modelled `none`) before anything is
written; a code above 65535 would make `struct.pack` raise. -/
def send_msp_v2 (code : Nat) (data : List Nat) : Option (List Nat) :=
  if 65535 < data.length then none
  else if 65535 < code then none
  else
    let headerPayload := 0 :: (u16le code ++ u16le data.length ++ data)
    some (36 :: 88 :: 60 :: (headerPayload ++ [calculate_crc_v2 headerPayload]))

/-- `ConnectionManager._read_v1_response` over the remaining byte stream:
read size and code, take `size` payload bytes, read the checksum byte and
compare it against the recomputed checksum; any shortage of bytes models
the caught `ord(b'')` error and yields `none`. -/
def read_v1_response : List Nat → Option (Nat × List Nat)
  | size :: code :: rest =>
    match rest.drop size with
    | chk :: _ =>
      if chk = calculate_checksum_v1 size code (rest.take size) then
        some (code, rest.take size)
      else none
    | [] => none
  | _ => none

/-- `ConnectionManager._read_v2_response` over the remaining byte stream:
read flag, 16-bit code and size, take `size` payload bytes, read the CRC
byte and compare it against the CRC recomputed over the re-packed
flag‖code‖size‖payload; any shortage of bytes yields `none`. -/
def read_v2_response : List Nat → Option (Nat × List Nat)
  | flag :: c0 :: c1 :: s0 :: s1 :: rest =>
    let code := c0 + 256 * c1
    let size := s0 + 256 * s1
    match rest.drop size with
    | crc :: _ =>
      let data := rest.take size
      if crc = calculate_crc_v2 (flag :: (u16le code ++ u16le size ++ data)) then
        some (code, data)
      else none
    | [] => none
  | _ => none

/-- `ConnectionManager.read_response`: scan the incoming stream for a `$`
byte, inspect the two header bytes after it, and dispatch to the v1/v2
frame readers; an error header `$M!` yields `(None, None)`, an unknown
header continues scanning, and an exhausted stream models the deadline
expiring with no frame (`(None, None)`). -/
def read_response : List Nat → Option (Nat × List Nat)
  | [] => none
  | b :: rest =>
    if b = 36 then
      match rest with
      | h1 :: h2 :: rest2 =>
        if h1 = 77 ∧ h2 = 62 then read_v1_response rest2
        else if h1 = 88 ∧ h2 = 62 then read_v2_response rest2
        else if h1 = 77 ∧ h2 = 33 then none
        else read_response rest2
      | _ => none
    else read_response rest

/-- Specification-side CRC-8/DVB-S2 bit step, written from the spec text:
for each of 8 bits shift left, XOR with 0xD5 if the top bit was set, and
mask to 8 bits. -/
def crc8_dvbs2_step_spec (c : Nat) : Nat :=
  if c.testBit 7 then ((c <<< 1) ^^^ 0xD5) &&& 0xFF
  else (c <<< 1) &&& 0xFF

/-- Specification-side CRC-8/DVB-S2: for each byte, XOR it into the running
value, then run eight spec bit steps. -/
def crc8_dvbs2_spec (data : List Nat) : Nat :=
  data.foldl (fun crc b => crc8_dvbs2_step_spec^[8] (crc ^^^ b)) 0

/-- Specification-side v1 checksum: size XOR code XOR the XOR-fold of the
payload bytes. -/
def checksum_v1_spec (size code : Nat) (data : List Nat) : Nat :=
  size ^^^ code ^^^ data.foldl (fun a b => a ^^^ b) 0

/-! ## Waypoint missions (`mspkit/mission.py`) -/

/-- The `Waypoint` data class: latitude/longitude/altitude (Python floats,
embedded as `ℚ`) plus action, three parameters and a flag. -/
structure Waypoint where
  lat : ℚ
  lon : ℚ
  alt : ℚ
  action : Int
  param1 : Int
  param2 : Int
  param3 : Int
  flag : Int
deriving DecidableEq, Repr

/-- The dictionary produced by `Waypoint.to_dict` / consumed by
`Waypoint.from_dict`: `lat`, `lon`, `alt` are mandatory keys, the remaining
keys are read with `dict.get` and a default, hence `Option`. -/
structure WpDict where
  lat : ℚ
  lon : ℚ
  alt : ℚ
  action : Option Int
  param1 : Option Int
  param2 : Option Int
  param3 : Option Int
  flag : Option Int
deriving DecidableEq, Repr

/-- `Waypoint.to_dict`: every field is written to the dictionary. -/
def Waypoint.to_dict (wp : Waypoint) : WpDict :=
  ⟨wp.lat, wp.lon, wp.alt, some wp.action, some wp.param1, some wp.param2,
    some wp.param3, some wp.flag⟩

/-- `Waypoint.from_dict`: `lat`, `lon`, `alt` are indexed directly; the
other fields default to `action=1` and `0` when absent. -/
def Waypoint.from_dict (d : WpDict) : Waypoint :=
  ⟨d.lat, d.lon, d.alt, d.action.getD 1, d.param1.getD 0, d.param2.getD 0,
    d.param3.getD 0, d.flag.getD 0⟩

/-- The in-memory state of a `Mission` object: its waypoint list and the
`_mission_loaded` flag. -/
structure MissionState where
  waypoints : List Waypoint
  missionLoaded : Bool
deriving DecidableEq, Repr

/-- `Mission.MAX_WAYPOINTS`. -/
def MAX_WAYPOINTS : Nat := 60

/-- `Mission.validate_coordinates`: latitude within ±90, longitude within
±180, altitude within −1000..10000. -/
def validate_coordinates (lat lon alt : ℚ) : Bool :=
  if ¬(-90 ≤ lat ∧ lat ≤ 90) then false
  else if ¬(-180 ≤ lon ∧ lon ≤ 180) then false
  else if ¬(-1000 ≤ alt ∧ alt ≤ 10000) then false
  else true

/-- `Mission.get_waypoint`: reject an out-of-range id, otherwise query the
transport for that slot. `read` abstracts the MSP_WP request/response and
its decoding; `none` covers every way the body can fail to produce a
waypoint (no/short/mismatched response or a caught exception). Python's
negative ids are likewise rejected; `Nat` ids model the non-negative
case. -/
def get_waypoint (read : Nat → Option Waypoint) (wp_id : Nat) : Option Waypoint :=
  if MAX_WAYPOINTS ≤ wp_id then none else read wp_id

/-- `Mission.set_waypoint`: reject an out-of-range id, validate coordinates
when requested (both before anything is sent), then send the MSP_SET_WP
frame — recorded in the returned write trace — and, when `validate` is
set, read the waypoint back and fail if any component differs beyond the
tolerances (1e-6 degrees for lat/lon, 0.1 m for altitude). When the
verification read yields nothing, the comparison is skipped. -/
def set_waypoint (read : Nat → Option Waypoint) (wp_id : Nat) (wp : Waypoint)
    (validate : Bool) : Bool × List (Nat × Waypoint) :=
  if MAX_WAYPOINTS ≤ wp_id then (false, [])
  else if validate && !(validate_coordinates wp.lat wp.lon wp.alt) then (false, [])
  else
    let writes := [(wp_id, wp)]
    if validate then
      match get_waypoint read wp_id with
      | some v =>
        if |v.lat - wp.lat| > 1/1000000 ∨ |v.lon - wp.lon| > 1/1000000 ∨
            |v.alt - wp.alt| > 1/10 then
          (false, writes)
        else (true, writes)
      | none => (true, writes)
    else (true, writes)

/-- `Mission.add_waypoint`: capacity check, coordinate validation, then
append. (The Python method receives the eight fields and constructs the
`Waypoint` itself.) -/
def add_waypoint (st : MissionState) (wp : Waypoint) : MissionState × Bool :=
  if MAX_WAYPOINTS ≤ st.waypoints.length then (st, false)
  else if !(validate_coordinates wp.lat wp.lon wp.alt) then (st, false)
  else ({ st with waypoints := st.waypoints ++ [wp] }, true)

/-- `Mission.insert_waypoint`: index bound check, capacity check,
coordinate validation, then insert at the index. -/
def insert_waypoint (st : MissionState) (index : Nat) (wp : Waypoint) :
    MissionState × Bool :=
  if st.waypoints.length < index then (st, false)
  else if MAX_WAYPOINTS ≤ st.waypoints.length then (st, false)
  else if !(validate_coordinates wp.lat wp.lon wp.alt) then (st, false)
  else ({ st with waypoints := st.waypoints.insertIdx index wp }, true)

/-- `Mission.remove_waypoint`: index bound check, then pop. -/
def remove_waypoint (st : MissionState) (index : Nat) : MissionState × Bool :=
  if st.waypoints.length ≤ index then (st, false)
  else ({ st with waypoints := st.waypoints.eraseIdx index }, true)

/-- `Mission.clear_mission`: drop all waypoints and reset the loaded
flag. -/
def clear_mission (_st : MissionState) : MissionState × Bool :=
  (⟨[], false⟩, true)

/-- The `Waypoint(0, 0, 0, 0)` used by `upload_mission` to blank trailing
slots on the device. -/
def empty_waypoint : Waypoint :=
  ⟨0, 0, 0, 0, 0, 0, 0, 0⟩

/-- The `for i, waypoint in enumerate(self.waypoints)` loop of
`Mission.upload_mission`, started at index `i`: returns the success count,
the accumulated write trace, and whether the loop ran to completion
(`false` when a failed `set_waypoint` with `validate` set made the method
return early). -/
def upload_loop (read : Nat → Option Waypoint) (validate : Bool) :
    Nat → List Waypoint → Nat × List (Nat × Waypoint) × Bool
  | _, [] => (0, [], true)
  | i, wp :: rest =>
    let r := set_waypoint read i wp validate
    if r.1 then
      let t := upload_loop read validate (i + 1) rest
      (t.1 + 1, r.2 ++ t.2.1, t.2.2)
    else if validate then (0, r.2, false)
    else
      let t := upload_loop read validate (i + 1) rest
      (t.1, r.2 ++ t.2.1, t.2.2)

/-- The trailing-slot blanking loop of `Mission.upload_mission`:
`set_waypoint(i, empty, validate=False)` for
`i in range(success_count, min(success_count + 5, MAX_WAYPOINTS))`;
its write trace is returned. -/
def clear_trailing_writes (read : Nat → Option Waypoint) (succ : Nat) :
    List (Nat × Waypoint) :=
  ((List.range' succ (min (succ + 5) MAX_WAYPOINTS - succ)).map
    (fun i => (set_waypoint read i empty_waypoint false).2)).flatten

/-- `Mission.upload_mission`: fail on an empty mission, run the upload
loop, then (when the loop completed) blank the trailing window and report
success — setting `_mission_loaded` — exactly when every waypoint
succeeded. The third component is the full MSP_SET_WP write trace. -/
def upload_mission (read : Nat → Option Waypoint) (validate : Bool)
    (st : MissionState) : MissionState × Bool × List (Nat × Waypoint) :=
  if st.waypoints.isEmpty then (st, false, [])
  else
    let t := upload_loop read validate 0 st.waypoints
    if t.2.2 then
      let cw := if t.1 < MAX_WAYPOINTS then clear_trailing_writes read t.1 else []
      if t.1 = st.waypoints.length then
        ({ st with missionLoaded := true }, true, t.2.1 ++ cw)
      else (st, false, t.2.1 ++ cw)
    else (st, false, t.2.1)

/-- The `for i in range(self.MAX_WAYPOINTS)` loop of
`Mission.download_mission`, reading slot `i` with `fuel` iterations left:
append while `get_waypoint` yields a waypoint whose lat or lon is nonzero,
break otherwise. -/
def download_loop (read : Nat → Option Waypoint) : Nat → Nat → List Waypoint
  | _, 0 => []
  | i, fuel + 1 =>
    match get_waypoint read i with
    | some w =>
      if w.lat ≠ 0 ∨ w.lon ≠ 0 then w :: download_loop read (i + 1) fuel
      else []
    | none => []

/-- `Mission.download_mission`: clear the in-memory list, run the download
loop over slots 0..59, then set `_mission_loaded` and return `True`. -/
def download_mission (read : Nat → Option Waypoint) (st : MissionState) :
    MissionState × Bool :=
  ({ st with
      waypoints := download_loop read 0 MAX_WAYPOINTS
      missionLoaded := true }, true)

/-- The waypoint payload written by `Mission.save_mission_to_file` (the
`'waypoints'` key of the JSON document; the surrounding metadata does not
influence loading). -/
def save_mission_to_file (st : MissionState) : List WpDict :=
  st.waypoints.map Waypoint.to_dict

/-- `Mission.load_mission_from_file`: `clear_mission()` (which resets the
loaded flag) followed by appending `Waypoint.from_dict` of every entry of
the file's waypoint list — with no capacity check. The parsed `'waypoints'`
list stands for the file. -/
def load_mission_from_file (file : List WpDict) (_st : MissionState) :
    MissionState × Bool :=
  ({ waypoints := file.map Waypoint.from_dict, missionLoaded := false }, true)

/-! ## Concrete inputs used by counterexamples and witnesses -/

/-- A valid, nonzero waypoint used by concrete scenarios. -/
def wpA : Waypoint := ⟨1, 2, 10, 1, 0, 0, 0, 0⟩

/-- Transport that answers slot 0 and then fails every further read. -/
def cex_read : Nat → Option Waypoint :=
  fun i => if i = 0 then some wpA else none

/-- Device contents for the sentinel scenario: three nonzero waypoints,
then all-zero slots. -/
def dev3 : Nat → Waypoint :=
  fun j =>
    if j = 0 then ⟨1, 2, 10, 1, 0, 0, 0, 0⟩
    else if j = 1 then ⟨2, 2, 10, 1, 0, 0, 0, 0⟩
    else if j = 2 then ⟨3, 2, 10, 1, 0, 0, 0, 0⟩
    else empty_waypoint

/-- Transport faithfully returning `dev3`. -/
def read3 : Nat → Option Waypoint :=
  fun j => some (dev3 j)

/-- Transport that echoes back the waypoints of a given mission on
verification reads. -/
def echo_read (wps : List Waypoint) : Nat → Option Waypoint :=
  fun i => wps[i]?

/-- A 61-entry mission file (follows the `Waypoint.to_dict` shape). -/
def file61 : List WpDict :=
  List.replicate 61 ⟨1, 2, 10, some 1, some 0, some 0, some 0, some 0⟩

/-- A Mission already holding `MAX_WAYPOINTS` waypoints. -/
def stFull : MissionState := ⟨List.replicate MAX_WAYPOINTS wpA, false⟩

/-- First three waypoints of the five-waypoint upload scenario. -/
def pre3 : List Waypoint :=
  [⟨1, 1, 10, 1, 0, 0, 0, 0⟩, ⟨2, 1, 10, 1, 0, 0, 0, 0⟩, ⟨3, 1, 10, 1, 0, 0, 0, 0⟩]

/-- The waypoint at index 3 of the five-waypoint upload scenario. -/
def wpI5 : Waypoint := ⟨4, 1, 10, 1, 0, 0, 0, 0⟩

/-- The final waypoint of the five-waypoint upload scenario. -/
def post5 : List Waypoint := [⟨5, 1, 10, 1, 0, 0, 0, 0⟩]

/-- The five-waypoint mission of the upload-failure scenario. -/
def st5 : MissionState := ⟨pre3 ++ wpI5 :: post5, false⟩

/-- The out-of-tolerance waypoint the device reports back at index 3. -/
def vbad : Waypoint := ⟨50, 1, 10, 1, 0, 0, 0, 0⟩

/-- Transport echoing the stored mission except at index 3, where the
verification read comes back more than 1e-6 degrees off in latitude. -/
def bad_read5 : Nat → Option Waypoint :=
  fun i => if i = 3 then some vbad else (pre3 ++ wpI5 :: post5)[i]?

/-- A two-waypoint mission for the trailing-window scenario. -/
def st2 : MissionState :=
  ⟨[⟨1, 1, 10, 1, 0, 0, 0, 0⟩, ⟨2, 1, 10, 1, 0, 0, 0, 0⟩], false⟩

/-- Transport echoing `st2` faithfully. -/
def echo2 : Nat → Option Waypoint := echo_read st2.waypoints

/-! ## Helper lemmas -/

/-- Folding XOR from an arbitrary accumulator factors through the fold
from zero. -/
theorem foldl_xor_shift (l : List Nat) :
    ∀ a : Nat, l.foldl (fun x b => x ^^^ b) a = a ^^^ l.foldl (fun x b => x ^^^ b) 0 := by
  induction l with
  | nil => intro a; simp
  | cons b l ih =>
    intro a
    simp only [List.foldl_cons]
    rw [ih (a ^^^ b), ih (0 ^^^ b), Nat.zero_xor, Nat.xor_assoc]

/-- The source v1 checksum agrees with the spec formulation
size XOR code XOR fold. -/
theorem checksum_v1_eq_spec (size code : Nat) (data : List Nat) :
    calculate_checksum_v1 size code data = checksum_v1_spec size code data := by
  unfold calculate_checksum_v1 checksum_v1_spec
  rw [foldl_xor_shift, Nat.xor_assoc]

/-- Bit 7 of a natural number is set exactly when masking with 0x80 is
nonzero. -/
theorem and128_ne_zero_iff (c : Nat) : c &&& 128 ≠ 0 ↔ c.testBit 7 = true := by
  rw [show (128 : Nat) = 2 ^ 7 by norm_num, Nat.and_two_pow]
  cases h : c.testBit 7 <;> simp

/-- The spec-worded CRC bit step is the source bit step. -/
theorem crc_step_eq (c : Nat) : crc8_dvbs2_step_spec c = crcBitStep c := by
  unfold crc8_dvbs2_step_spec crcBitStep
  by_cases h : c.testBit 7
  · rw [if_pos h, if_pos ((and128_ne_zero_iff c).2 h)]
  · rw [if_neg h, if_neg (fun hc => h ((and128_ne_zero_iff c).1 hc))]

/-- The spec-worded CRC-8/DVB-S2 agrees with the source CRC. -/
theorem crc_v2_eq_spec (data : List Nat) :
    crc8_dvbs2_spec data = calculate_crc_v2 data := by
  unfold crc8_dvbs2_spec calculate_crc_v2
  have hstep : crc8_dvbs2_step_spec = crcBitStep := funext crc_step_eq
  rw [hstep]

/-! ## Claim theorems: frame codec -/

/-- Claim C5: for every code in 0..255 and payload of at most 255 bytes,
the V1 encoder emits exactly `$`, `M`, `<`, the size byte, the code byte,
the payload and one checksum byte equal to size XOR code XOR the XOR-fold
of the payload; a payload longer than 255 bytes fails (raises) before any
bytes are written. -/
theorem send_msp_v1_format (code : Nat) (data : List Nat) (hcode : code ≤ 255) :
    (data.length ≤ 255 →
      send_msp_v1 code data =
        some (36 :: 77 :: 60 :: data.length :: code ::
          (data ++ [checksum_v1_spec data.length code data]))) ∧
    (255 < data.length → send_msp_v1 code data = none) := by
  constructor
  · intro hlen
    unfold send_msp_v1
    rw [if_neg (by omega), if_neg (by omega), checksum_v1_eq_spec]
  · intro hlen
    unfold send_msp_v1
    rw [if_pos hlen]

/-- Witness for C5 at code 101 and payload `[7, 9]`. -/
theorem send_msp_v1_format_witness :
    send_msp_v1 101 [7, 9] =
      some (36 :: 77 :: 60 :: 2 :: 101 ::
        ([7, 9] ++ [checksum_v1_spec 2 101 [7, 9]])) :=
  (send_msp_v1_format 101 [7, 9] (by decide)).1 (by decide)

/-- Claim C4: for every code in 0..65535 and payload of at most 65535
bytes, the V2 encoder emits exactly `$`, `X`, `<`, flag byte 0, the code
and size as u16 little-endian, the payload and one CRC byte computed over
flag‖code‖size‖payload by the CRC-8/DVB-S2 algorithm (XOR the byte in,
then eight times: shift left, XOR with 0xD5 if the top bit was set, mask
to 8 bits); a longer payload fails. -/
theorem send_msp_v2_format (code : Nat) (data : List Nat) (hcode : code ≤ 65535) :
    (data.length ≤ 65535 →
      send_msp_v2 code data =
        some (36 :: 88 :: 60 :: 0 ::
          ((u16le code ++ u16le data.length ++ data) ++
            [crc8_dvbs2_spec (0 :: (u16le code ++ u16le data.length ++ data))]))) ∧
    (65535 < data.length → send_msp_v2 code data = none) := by
  constructor
  · intro hlen
    unfold send_msp_v2
    rw [if_neg (by omega), if_neg (by omega), crc_v2_eq_spec]
    simp [List.cons_append, List.append_assoc]
  · intro hlen
    unfold send_msp_v2
    rw [if_pos hlen]

/-- Witness for C4 at code 300 and payload `[1, 2, 3]`. -/
theorem send_msp_v2_format_witness :
    send_msp_v2 300 [1, 2, 3] =
      some (36 :: 88 :: 60 :: 0 ::
        ((u16le 300 ++ u16le 3 ++ [1, 2, 3]) ++
          [crc8_dvbs2_spec (0 :: (u16le 300 ++ u16le 3 ++ [1, 2, 3]))])) :=
  (send_msp_v2_format 300 [1, 2, 3] (by decide)).1 (by decide)

/-- Claim C7: whenever the receive path fails to obtain a valid frame —
an exhausted stream (the deadline expires with no frame), an
error-response header `$M!`, or a v1/v2 frame whose recomputed
checksum/CRC differs from the received integrity byte — `read_response`
returns the empty result `(None, None)` (modelled `none`): no code, no
payload, and no partial frame data. The embedding is a total function, so
none of these cases raises. -/
theorem read_response_failure_empty :
    (read_response [] = none) ∧
    (∀ rest : List Nat, read_response (36 :: 77 :: 33 :: rest) = none) ∧
    (∀ size code chk : Nat, ∀ data rest : List Nat, data.length = size →
      chk ≠ calculate_checksum_v1 size code data →
      read_response (36 :: 77 :: 62 :: size :: code :: (data ++ chk :: rest)) = none) ∧
    (∀ flag c0 c1 s0 s1 crc : Nat, ∀ data rest : List Nat,
      data.length = s0 + 256 * s1 →
      crc ≠ calculate_crc_v2
        (flag :: (u16le (c0 + 256 * c1) ++ u16le (s0 + 256 * s1) ++ data)) →
      read_response
        (36 :: 88 :: 62 :: flag :: c0 :: c1 :: s0 :: s1 :: (data ++ crc :: rest)) =
        none) := by
  refine ⟨rfl, ?_, ?_, ?_⟩
  · intro rest
    simp [read_response]
  · intro size code chk data rest hlen hchk
    subst hlen
    simp [read_response, read_v1_response, List.drop_left, List.take_left, hchk]
  · intro flag c0 c1 s0 s1 crc data rest hlen hchk
    have hd : (data ++ crc :: rest).drop (s0 + 256 * s1) = crc :: rest := by
      rw [← hlen]; exact List.drop_left _ _
    have ht : (data ++ crc :: rest).take (s0 + 256 * s1) = data := by
      rw [← hlen]; exact List.take_left _ _
    have hchk2 : ¬crc = calculate_crc_v2
        (flag :: (u16le (c0 + 256 * c1) ++ (u16le (s0 + 256 * s1) ++ data))) := by
      rw [← List.append_assoc]; exact hchk
    simp [read_response, read_v2_response, hd, ht, hchk2]

/-- Witness for C7: a v1 frame whose checksum byte 99 differs from the
recomputed checksum 13 is discarded. -/
theorem read_response_failure_empty_witness :
    read_response [36, 77, 62, 1, 5, 9, 99] = none :=
  read_response_failure_empty.2.2.1 1 5 99 [9] [] (by decide) (by decide)

/-! ## Claim theorems: missions -/

/-- Claim C8: saving a Mission to a mission file and loading it back
reproduces exactly the same waypoint sequence — every field of every
waypoint — regardless of the state it is loaded into. -/
theorem save_load_roundtrip (st st' : MissionState) :
    (load_mission_from_file (save_mission_to_file st) st').1.waypoints =
      st.waypoints := by
  simp only [load_mission_from_file, save_mission_to_file, List.map_map]
  have h : Waypoint.from_dict ∘ Waypoint.to_dict = id := funext fun wp => rfl
  rw [h, List.map_id]

/-! ## Helper lemmas: mission synchronizer -/

/-- The `let` of `set_waypoint` inlined: a definitional restatement used to
drive case analysis. -/
theorem set_waypoint_eq (read : Nat → Option Waypoint) (k : Nat)
    (wp : Waypoint) (v : Bool) :
    set_waypoint read k wp v =
      if MAX_WAYPOINTS ≤ k then (false, [])
      else if v && !(validate_coordinates wp.lat wp.lon wp.alt) then (false, [])
      else if v then
        match get_waypoint read k with
        | some w =>
          if |w.lat - wp.lat| > 1/1000000 ∨ |w.lon - wp.lon| > 1/1000000 ∨
              |w.alt - wp.alt| > 1/10 then
            (false, [(k, wp)])
          else (true, [(k, wp)])
        | none => (true, [(k, wp)])
      else (true, [(k, wp)]) := rfl

/-- The write trace of `set_waypoint` is empty exactly when a pre-send
guard failed, and its own single frame otherwise. -/
theorem set_waypoint_snd_eq (read : Nat → Option Waypoint) (k : Nat)
    (wp : Waypoint) (v : Bool) :
    (set_waypoint read k wp v).2 =
      if MAX_WAYPOINTS ≤ k then []
      else if v && !(validate_coordinates wp.lat wp.lon wp.alt) then []
      else [(k, wp)] := by
  rw [set_waypoint_eq]
  by_cases h1 : MAX_WAYPOINTS ≤ k
  · rw [if_pos h1, if_pos h1]
  · rw [if_neg h1, if_neg h1]
    by_cases h2 : (v && !(validate_coordinates wp.lat wp.lon wp.alt)) = true
    · rw [if_pos h2, if_pos h2]
    · rw [if_neg h2, if_neg h2]
      by_cases h3 : v = true
      · rw [if_pos h3]
        cases hg : get_waypoint read k with
        | some w =>
          show (if |w.lat - wp.lat| > 1/1000000 ∨ |w.lon - wp.lon| > 1/1000000 ∨
              |w.alt - wp.alt| > 1/10 then
              ((false : Bool), [(k, wp)]) else (true, [(k, wp)])).2 = [(k, wp)]
          by_cases h4 : |w.lat - wp.lat| > 1/1000000 ∨ |w.lon - wp.lon| > 1/1000000 ∨
              |w.alt - wp.alt| > 1/10
          · rw [if_pos h4]
          · rw [if_neg h4]
        | none => rfl
      · rw [if_neg h3]

/-- A `set_waypoint` call writes either nothing (a pre-send guard failed)
or exactly the one frame for its own index. -/
theorem set_waypoint_writes (read : Nat → Option Waypoint) (k : Nat)
    (wp : Waypoint) (v : Bool) :
    (set_waypoint read k wp v).2 = [] ∨ (set_waypoint read k wp v).2 = [(k, wp)] := by
  rw [set_waypoint_snd_eq]
  by_cases h1 : MAX_WAYPOINTS ≤ k
  · rw [if_pos h1]; exact Or.inl rfl
  · rw [if_neg h1]
    by_cases h2 : (v && !(validate_coordinates wp.lat wp.lon wp.alt)) = true
    · rw [if_pos h2]; exact Or.inl rfl
    · rw [if_neg h2]; exact Or.inr rfl

/-- A successful `set_waypoint` call wrote exactly its own frame. -/
theorem set_waypoint_ok_writes (read : Nat → Option Waypoint) (k : Nat)
    (wp : Waypoint) (v : Bool) (h : (set_waypoint read k wp v).1 = true) :
    (set_waypoint read k wp v).2 = [(k, wp)] := by
  rw [set_waypoint_snd_eq]
  by_cases h1 : MAX_WAYPOINTS ≤ k
  · exfalso
    rw [set_waypoint_eq, if_pos h1] at h
    simp at h
  · rw [if_neg h1]
    by_cases h2 : (v && !(validate_coordinates wp.lat wp.lon wp.alt)) = true
    · exfalso
      rw [set_waypoint_eq, if_neg h1, if_pos h2] at h
      simp at h
    · rw [if_neg h2]

/-- `set_waypoint` without validation on an in-range id always succeeds and
writes its frame. -/
theorem set_waypoint_noverify (read : Nat → Option Waypoint) (k : Nat)
    (wp : Waypoint) (hk : k < MAX_WAYPOINTS) :
    set_waypoint read k wp false = (true, [(k, wp)]) := by
  have h1 : ¬(MAX_WAYPOINTS ≤ k) := by omega
  simp [set_waypoint, h1]

/-- `set_waypoint` with validation fails, after sending its frame, when the
verification read returns a waypoint beyond tolerance. -/
theorem set_waypoint_verify_mismatch (read : Nat → Option Waypoint) (k : Nat)
    (wp v : Waypoint) (hk : k < MAX_WAYPOINTS)
    (hco : validate_coordinates wp.lat wp.lon wp.alt = true)
    (hv : read k = some v)
    (hmis : |v.lat - wp.lat| > 1/1000000 ∨ |v.lon - wp.lon| > 1/1000000 ∨
      |v.alt - wp.alt| > 1/10) :
    set_waypoint read k wp true = (false, [(k, wp)]) := by
  have h1 : ¬(MAX_WAYPOINTS ≤ k) := by omega
  have hg : get_waypoint read k = some v := by
    unfold get_waypoint; rw [if_neg h1]; exact hv
  rw [set_waypoint_eq, if_neg h1, if_neg (by simp [hco]), if_pos rfl, hg]
  show (if |v.lat - wp.lat| > 1/1000000 ∨ |v.lon - wp.lon| > 1/1000000 ∨
      |v.alt - wp.alt| > 1/10 then
      ((false : Bool), [(k, wp)]) else (true, [(k, wp)])) = (false, [(k, wp)])
  rw [if_pos hmis]

/-- `set_waypoint` with validation succeeds when the verification read
echoes the written waypoint exactly (all differences are zero). -/
theorem set_waypoint_verify_echo (read : Nat → Option Waypoint) (k : Nat)
    (wp : Waypoint) (hk : k < MAX_WAYPOINTS)
    (hco : validate_coordinates wp.lat wp.lon wp.alt = true)
    (hv : read k = some wp) :
    set_waypoint read k wp true = (true, [(k, wp)]) := by
  have h1 : ¬(MAX_WAYPOINTS ≤ k) := by omega
  have hg : get_waypoint read k = some wp := by
    unfold get_waypoint; rw [if_neg h1]; exact hv
  rw [set_waypoint_eq, if_neg h1, if_neg (by simp [hco]), if_pos rfl, hg]
  show (if |wp.lat - wp.lat| > 1/1000000 ∨ |wp.lon - wp.lon| > 1/1000000 ∨
      |wp.alt - wp.alt| > 1/10 then
      ((false : Bool), [(k, wp)]) else (true, [(k, wp)])) = (true, [(k, wp)])
  rw [if_neg (by simp only [sub_self, abs_zero]; norm_num)]

/-- The first components of `List.enumFrom` entries are below the start
plus the list length. -/
theorem enumFrom_fst_lt (l : List Waypoint) :
    ∀ (n : Nat) (p : Nat × Waypoint), p ∈ List.enumFrom n l → p.1 < n + l.length := by
  induction l with
  | nil => intro n p hp; simp [List.enumFrom] at hp
  | cons a l ih =>
    intro n p hp
    simp only [List.enumFrom] at hp
    rcases List.mem_cons.1 hp with rfl | hp
    · simp
    · have := ih (n + 1) p hp
      simp only [List.length_cons]
      omega

/-- When every `set_waypoint` in the enumerate loop succeeds, `upload_loop`
counts every waypoint, writes exactly the enumerated frames, and
completes. -/
theorem upload_loop_ok (read : Nat → Option Waypoint) (validate : Bool) :
    ∀ (l : List Waypoint) (i : Nat),
      (∀ j (hj : j < l.length),
        (set_waypoint read (i + j) (l.get ⟨j, hj⟩) validate).1 = true) →
      upload_loop read validate i l = (l.length, List.enumFrom i l, true) := by
  intro l
  induction l with
  | nil => intro i _; rfl
  | cons wp rest ih =>
    intro i hok
    have h0 : (set_waypoint read i wp validate).1 = true := by
      simpa using hok 0 (by simp)
    have hrest : ∀ j (hj : j < rest.length),
        (set_waypoint read (i + 1 + j) (rest.get ⟨j, hj⟩) validate).1 = true := by
      intro j hj
      have harith : i + 1 + j = i + (j + 1) := by omega
      rw [harith]
      simpa using hok (j + 1) (by simpa using Nat.succ_lt_succ hj)
    unfold upload_loop
    rw [ih (i + 1) hrest]
    simp [h0, set_waypoint_ok_writes read i wp validate h0, List.enumFrom]

/-- When the first `pre.length` calls succeed and the call for the next
waypoint fails with validation on, `upload_loop` returns early: the trace
is the enumerated prefix plus whatever the failing call wrote, and the
completion flag is `false`. -/
theorem upload_loop_abort (read : Nat → Option Waypoint) (wpI : Waypoint)
    (post : List Waypoint) :
    ∀ (pre : List Waypoint) (i : Nat),
      (∀ j (hj : j < pre.length),
        (set_waypoint read (i + j) (pre.get ⟨j, hj⟩) true).1 = true) →
      (set_waypoint read (i + pre.length) wpI true).1 = false →
      upload_loop read true i (pre ++ wpI :: post) =
        (pre.length,
          List.enumFrom i pre ++ (set_waypoint read (i + pre.length) wpI true).2,
          false) := by
  intro pre
  induction pre with
  | nil =>
    intro i _ hfail
    simp only [List.length_nil, Nat.add_zero] at hfail ⊢
    unfold upload_loop
    simp [hfail, List.enumFrom]
  | cons q pre' ih =>
    intro i hok hfail
    have h0 : (set_waypoint read i q true).1 = true := by
      simpa using hok 0 (by simp)
    have hrest : ∀ j (hj : j < pre'.length),
        (set_waypoint read (i + 1 + j) (pre'.get ⟨j, hj⟩) true).1 = true := by
      intro j hj
      have harith : i + 1 + j = i + (j + 1) := by omega
      rw [harith]
      simpa using hok (j + 1) (by simpa using Nat.succ_lt_succ hj)
    have harith : i + 1 + pre'.length = i + (q :: pre').length := by
      simp only [List.length_cons]; omega
    have hfail' : (set_waypoint read (i + 1 + pre'.length) wpI true).1 = false := by
      rw [harith]; exact hfail
    simp only [List.cons_append]
    unfold upload_loop
    rw [ih (i + 1) hrest hfail']
    rw [harith] at *
    simp [h0, set_waypoint_ok_writes read i q true h0, List.enumFrom]

/-- The trailing blanking loop writes exactly one empty waypoint per index
in `range(success_count, min(success_count + 5, MAX_WAYPOINTS))`. -/
theorem clear_trailing_writes_eq (read : Nat → Option Waypoint) (succ : Nat) :
    clear_trailing_writes read succ =
      (List.range' succ (min (succ + 5) MAX_WAYPOINTS - succ)).map
        (fun i => (i, empty_waypoint)) := by
  unfold clear_trailing_writes
  have hmem : ∀ i ∈ List.range' succ (min (succ + 5) MAX_WAYPOINTS - succ),
      i < MAX_WAYPOINTS := by
    intro i hi
    have h := List.mem_range'_1.1 hi
    unfold MAX_WAYPOINTS at *
    omega
  revert hmem
  generalize List.range' succ (min (succ + 5) MAX_WAYPOINTS - succ) = l
  intro hmem
  induction l with
  | nil => rfl
  | cons a l ih =>
    simp only [List.map_cons, List.flatten_cons]
    rw [set_waypoint_noverify read a empty_waypoint (hmem a (by simp))]
    rw [ih (fun i hi => hmem i (by simp [hi]))]
    rfl

/-- The download loop reads at most `fuel` waypoints. -/
theorem download_loop_length_le (read : Nat → Option Waypoint) :
    ∀ (fuel i : Nat), (download_loop read i fuel).length ≤ fuel := by
  intro fuel
  induction fuel with
  | zero => intro i; simp [download_loop]
  | succ f ih =>
    intro i
    unfold download_loop
    cases hg : get_waypoint read i with
    | none => simp
    | some w =>
      show (if w.lat ≠ 0 ∨ w.lon ≠ 0 then w :: download_loop read (i + 1) f
        else []).length ≤ f + 1
      by_cases h : w.lat ≠ 0 ∨ w.lon ≠ 0
      · rw [if_pos h]
        simpa using Nat.succ_le_succ (ih (i + 1))
      · rw [if_neg h]
        simp

/-- The download loop collects exactly the waypoints before the first slot
that fails to read or decodes to an all-zero position. -/
theorem download_loop_eq (read : Nat → Option Waypoint) (dev : Nat → Waypoint) :
    ∀ (k i fuel : Nat), k < fuel → i + k < MAX_WAYPOINTS →
      (∀ j, j < k → read (i + j) = some (dev (i + j)) ∧
        ((dev (i + j)).lat ≠ 0 ∨ (dev (i + j)).lon ≠ 0)) →
      (∀ w, read (i + k) = some w → w.lat = 0 ∧ w.lon = 0) →
      download_loop read i fuel = (List.range' i k).map dev := by
  intro k
  induction k with
  | zero =>
    intro i fuel hf hik hpre hstop
    obtain ⟨f, rfl⟩ : ∃ f, fuel = f + 1 := ⟨fuel - 1, by omega⟩
    unfold download_loop
    have hg : get_waypoint read i = read i := by
      unfold get_waypoint
      rw [if_neg (by omega)]
    rw [hg]
    cases hr : read i with
    | none => rfl
    | some w =>
      have hz := hstop w hr
      show (if w.lat ≠ 0 ∨ w.lon ≠ 0 then w :: download_loop read (i + 1) f
        else []) = List.map dev (List.range' i 0)
      rw [if_neg (by simp [hz.1, hz.2])]
      rfl
  | succ k ih =>
    intro i fuel hf hik hpre hstop
    obtain ⟨f, rfl⟩ : ∃ f, fuel = f + 1 := ⟨fuel - 1, by omega⟩
    unfold download_loop
    have hg : get_waypoint read i = read i := by
      unfold get_waypoint
      rw [if_neg (by omega)]
    have h0 := hpre 0 (by omega)
    simp only [Nat.add_zero] at h0
    rw [hg, h0.1]
    show (if (dev i).lat ≠ 0 ∨ (dev i).lon ≠ 0 then
        dev i :: download_loop read (i + 1) f else []) =
      List.map dev (List.range' i (k + 1))
    rw [if_pos h0.2]
    have hpre' : ∀ j, j < k → read (i + 1 + j) = some (dev (i + 1 + j)) ∧
        ((dev (i + 1 + j)).lat ≠ 0 ∨ (dev (i + 1 + j)).lon ≠ 0) := by
      intro j hj
      have harith : i + 1 + j = i + (j + 1) := by omega
      rw [harith]
      exact hpre (j + 1) (by omega)
    have hstop' : ∀ w, read (i + 1 + k) = some w → w.lat = 0 ∧ w.lon = 0 := by
      intro w hw
      apply hstop
      rw [show i + (k + 1) = i + 1 + k from by omega]
      exact hw
    rw [ih (i + 1) f (by omega) (by omega) hpre' hstop']
    rfl

/-- The `let`s of `upload_mission` inlined: a definitional restatement used
to drive case analysis. -/
theorem upload_mission_eq (read : Nat → Option Waypoint) (validate : Bool)
    (st : MissionState) :
    upload_mission read validate st =
      if st.waypoints.isEmpty then (st, false, [])
      else if (upload_loop read validate 0 st.waypoints).2.2 then
        if (upload_loop read validate 0 st.waypoints).1 = st.waypoints.length then
          ({ st with missionLoaded := true }, true,
            (upload_loop read validate 0 st.waypoints).2.1 ++
              (if (upload_loop read validate 0 st.waypoints).1 < MAX_WAYPOINTS then
                clear_trailing_writes read (upload_loop read validate 0 st.waypoints).1
              else []))
        else (st, false,
          (upload_loop read validate 0 st.waypoints).2.1 ++
            (if (upload_loop read validate 0 st.waypoints).1 < MAX_WAYPOINTS then
              clear_trailing_writes read (upload_loop read validate 0 st.waypoints).1
            else []))
      else (st, false, (upload_loop read validate 0 st.waypoints).2.1) := rfl

/-! ## Claim theorems: missions (continued) -/

/-- Claim C2: with verification enabled, when the verification read-back of
the waypoint at index `pre.length` differs from the intended values beyond
tolerance (|Δlat| > 1e-6, |Δlon| > 1e-6 or |Δalt| > 0.1) while every
earlier `set_waypoint` succeeds, the upload reports failure for the whole
mission, the failing index was the last one sent, and no waypoint with a
greater index is ever sent to the device. -/
theorem upload_verification_mismatch_aborts (read : Nat → Option Waypoint)
    (pre post : List Waypoint) (wpI v : Waypoint) (st : MissionState)
    (hst : st.waypoints = pre ++ wpI :: post)
    (hi : pre.length < MAX_WAYPOINTS)
    (hco : validate_coordinates wpI.lat wpI.lon wpI.alt = true)
    (hok : ∀ j (hj : j < pre.length),
      (set_waypoint read j (pre.get ⟨j, hj⟩) true).1 = true)
    (hv : read pre.length = some v)
    (hmis : |v.lat - wpI.lat| > 1/1000000 ∨ |v.lon - wpI.lon| > 1/1000000 ∨
      |v.alt - wpI.alt| > 1/10) :
    (upload_mission read true st).2.1 = false ∧
    (pre.length, wpI) ∈ (upload_mission read true st).2.2 ∧
    ∀ p ∈ (upload_mission read true st).2.2, p.1 ≤ pre.length := by
  have hfailEq : set_waypoint read pre.length wpI true = (false, [(pre.length, wpI)]) :=
    set_waypoint_verify_mismatch read pre.length wpI v hi hco hv hmis
  have hok0 : ∀ j (hj : j < pre.length),
      (set_waypoint read (0 + j) (pre.get ⟨j, hj⟩) true).1 = true := by
    intro j hj; rw [Nat.zero_add]; exact hok j hj
  have hfail0 : (set_waypoint read (0 + pre.length) wpI true).1 = false := by
    rw [Nat.zero_add, hfailEq]
  have hloop := upload_loop_abort read wpI post pre 0 hok0 hfail0
  rw [Nat.zero_add, hfailEq] at hloop
  have hne : (pre ++ wpI :: post).isEmpty = false := by cases pre <;> rfl
  have hres : upload_mission read true st =
      (st, false, List.enumFrom 0 pre ++ [(pre.length, wpI)]) := by
    rw [upload_mission_eq, hst, hloop]
    simp [hne]
  refine ⟨by rw [hres], by rw [hres]; simp, ?_⟩
  intro p hp
  rw [hres] at hp
  rcases List.mem_append.1 hp with hp | hp
  · have := enumFrom_fst_lt pre 0 p hp
    omega
  · rcases List.mem_singleton.1 hp with rfl
    simp

/-- Witness for C2: a five-waypoint mission whose verification read at
index 3 is 46 degrees off in latitude — the upload fails, index 3 was
sent, and (by the theorem) nothing after index 3 is sent. -/
theorem upload_verification_mismatch_aborts_witness :
    (upload_mission bad_read5 true st5).2.1 = false ∧
    (3, wpI5) ∈ (upload_mission bad_read5 true st5).2.2 := by
  have hok : ∀ j (hj : j < pre3.length),
      (set_waypoint bad_read5 j (pre3.get ⟨j, hj⟩) true).1 = true := by
    intro j hj
    have hj3 : j < 3 := hj
    interval_cases j
    · show (set_waypoint bad_read5 0 (⟨1, 1, 10, 1, 0, 0, 0, 0⟩ : Waypoint) true).1 = true
      rw [set_waypoint_verify_echo bad_read5 0 ⟨1, 1, 10, 1, 0, 0, 0, 0⟩
        (by norm_num [MAX_WAYPOINTS]) (by decide) (by rfl)]
    · show (set_waypoint bad_read5 1 (⟨2, 1, 10, 1, 0, 0, 0, 0⟩ : Waypoint) true).1 = true
      rw [set_waypoint_verify_echo bad_read5 1 ⟨2, 1, 10, 1, 0, 0, 0, 0⟩
        (by norm_num [MAX_WAYPOINTS]) (by decide) (by rfl)]
    · show (set_waypoint bad_read5 2 (⟨3, 1, 10, 1, 0, 0, 0, 0⟩ : Waypoint) true).1 = true
      rw [set_waypoint_verify_echo bad_read5 2 ⟨3, 1, 10, 1, 0, 0, 0, 0⟩
        (by norm_num [MAX_WAYPOINTS]) (by decide) (by rfl)]
  have hmis : |vbad.lat - wpI5.lat| > 1/1000000 ∨ |vbad.lon - wpI5.lon| > 1/1000000 ∨
      |vbad.alt - wpI5.alt| > 1/10 := by
    left
    have h46 : vbad.lat - wpI5.lat = 46 := by norm_num [vbad, wpI5]
    rw [h46, abs_of_pos (by norm_num)]
    norm_num
  have h := upload_verification_mismatch_aborts bad_read5 pre3 post5 wpI5 vbad st5
    rfl (by norm_num [pre3, MAX_WAYPOINTS]) (by decide) hok rfl hmis
  exact ⟨h.1, h.2.1⟩

/-- Claim C9: when every waypoint of a non-empty mission uploads and
verifies successfully, `upload_mission` reports success, marks the mission
loaded, and its write trace is exactly the N mission waypoints in order
followed by one empty waypoint (all-zero coordinates and action) for each
index in `range(N, min(N + 5, 60))` — never beyond that window, never at
index 60 or above. -/
theorem upload_clear_trailing_window (read : Nat → Option Waypoint)
    (st : MissionState) (hne : st.waypoints ≠ [])
    (hok : ∀ j (hj : j < st.waypoints.length),
      (set_waypoint read j (st.waypoints.get ⟨j, hj⟩) true).1 = true) :
    upload_mission read true st =
      ({ st with missionLoaded := true }, true,
        List.enumFrom 0 st.waypoints ++
          (List.range' st.waypoints.length
            (min (st.waypoints.length + 5) MAX_WAYPOINTS - st.waypoints.length)).map
            (fun i => (i, empty_waypoint))) := by
  have hok0 : ∀ j (hj : j < st.waypoints.length),
      (set_waypoint read (0 + j) (st.waypoints.get ⟨j, hj⟩) true).1 = true := by
    intro j hj; rw [Nat.zero_add]; exact hok j hj
  have hloop := upload_loop_ok read true st.waypoints 0 hok0
  have hN : st.waypoints.length ≤ MAX_WAYPOINTS := by
    by_contra hgt
    push_neg at hgt
    have h60 := hok MAX_WAYPOINTS hgt
    rw [set_waypoint_eq, if_pos (le_refl MAX_WAYPOINTS)] at h60
    simp at h60
  have hisEmpty : st.waypoints.isEmpty = false := by
    cases hw : st.waypoints with
    | nil => exact (hne hw).elim
    | cons a l => rfl
  rw [upload_mission_eq, hloop]
  simp only [hisEmpty, Bool.false_eq_true, if_false]
  rcases Nat.lt_or_ge st.waypoints.length MAX_WAYPOINTS with hlt | hge
  · simp only [if_pos hlt]
    rw [clear_trailing_writes_eq]
    simp
  · have heq : st.waypoints.length = MAX_WAYPOINTS := le_antisymm hN hge
    simp only [heq, lt_irrefl, if_false]
    have hwin : min (MAX_WAYPOINTS + 5) MAX_WAYPOINTS - MAX_WAYPOINTS = 0 := by
      unfold MAX_WAYPOINTS; omega
    rw [hwin]
    simp

/-- Witness for C9: the two-waypoint mission `st2` with a faithful echo
transport uploads successfully and blanks exactly slots 2..6. -/
theorem upload_clear_trailing_window_witness :
    upload_mission echo2 true st2 =
      ({ st2 with missionLoaded := true }, true,
        List.enumFrom 0 st2.waypoints ++
          (List.range' st2.waypoints.length
            (min (st2.waypoints.length + 5) MAX_WAYPOINTS - st2.waypoints.length)).map
            (fun i => (i, empty_waypoint))) := by
  have hok : ∀ j (hj : j < st2.waypoints.length),
      (set_waypoint echo2 j (st2.waypoints.get ⟨j, hj⟩) true).1 = true := by
    intro j hj
    have hj2 : j < 2 := hj
    interval_cases j
    · show (set_waypoint echo2 0 (⟨1, 1, 10, 1, 0, 0, 0, 0⟩ : Waypoint) true).1 = true
      rw [set_waypoint_verify_echo echo2 0 ⟨1, 1, 10, 1, 0, 0, 0, 0⟩
        (by norm_num [MAX_WAYPOINTS]) (by decide) (by rfl)]
    · show (set_waypoint echo2 1 (⟨2, 1, 10, 1, 0, 0, 0, 0⟩ : Waypoint) true).1 = true
      rw [set_waypoint_verify_echo echo2 1 ⟨2, 1, 10, 1, 0, 0, 0, 0⟩
        (by norm_num [MAX_WAYPOINTS]) (by decide) (by rfl)]
  exact upload_clear_trailing_window echo2 st2 (by decide) hok

/-- Claim C1 counterexample: with a transport that answers slot 0 and then
fails (no valid waypoint for index 1), `download_mission` does not abort
and discard — it keeps the one collected waypoint, marks the Mission
loaded, and reports success. -/
theorem download_read_failure_keeps_partial_cex :
    cex_read 1 = none ∧
    download_mission cex_read ⟨[], false⟩ = (⟨[wpA], true⟩, true) := by
  exact ⟨rfl, by decide⟩

/-- Claim C1 (amended): a waypoint read that fails before an all-zero
sentinel is treated exactly like the sentinel — `download_mission` stops
at the failed index, keeps every waypoint collected so far as the new
mission, marks the Mission loaded, and returns success; nothing is
discarded and no failure is reported. -/
theorem download_read_failure_treated_as_sentinel (read : Nat → Option Waypoint)
    (dev : Nat → Waypoint) (k : Nat) (hk : k < MAX_WAYPOINTS)
    (hread : ∀ j, j < k → read j = some (dev j))
    (hnz : ∀ j, j < k → (dev j).lat ≠ 0 ∨ (dev j).lon ≠ 0)
    (hfail : read k = none) (st : MissionState) :
    download_mission read st =
      ({ st with
          waypoints := (List.range k).map dev
          missionLoaded := true }, true) := by
  unfold download_mission
  rw [download_loop_eq read dev k 0 MAX_WAYPOINTS (by omega) (by omega)
      (fun j hj => ⟨by rw [Nat.zero_add]; exact hread j hj,
        by rw [Nat.zero_add]; exact hnz j hj⟩)
      (fun w hw => by rw [Nat.zero_add, hfail] at hw; exact Option.noConfusion hw)]
  rw [List.range_eq_range']

/-- Witness for the amended C1: the transport failing at slot 1 yields the
one-waypoint mission, loaded, with success. -/
theorem download_read_failure_treated_as_sentinel_witness :
    download_mission cex_read ⟨[], false⟩ =
      (⟨(List.range 1).map (fun _ => wpA), true⟩, true) :=
  download_read_failure_treated_as_sentinel cex_read (fun _ => wpA) 1 (by decide)
    (by decide) (by decide) (by rfl) ⟨[], false⟩

/-- Claim C6: `download_mission` reads slots in index order, stops at the
first slot whose decoded latitude and longitude are both exactly zero, and
the result is exactly the waypoints before that sentinel in a freshly
cleared Mission marked loaded. -/
theorem download_sentinel_stop (read : Nat → Option Waypoint) (dev : Nat → Waypoint)
    (k : Nat) (hk : k < MAX_WAYPOINTS)
    (hread : ∀ j, j ≤ k → read j = some (dev j))
    (hnz : ∀ j, j < k → (dev j).lat ≠ 0 ∨ (dev j).lon ≠ 0)
    (hsent : (dev k).lat = 0 ∧ (dev k).lon = 0) (st : MissionState) :
    download_mission read st =
      ({ st with
          waypoints := (List.range k).map dev
          missionLoaded := true }, true) := by
  unfold download_mission
  rw [download_loop_eq read dev k 0 MAX_WAYPOINTS (by omega) (by omega)
      (fun j hj => ⟨by rw [Nat.zero_add]; exact hread j (Nat.le_of_lt hj),
        by rw [Nat.zero_add]; exact hnz j hj⟩)
      (fun w hw => by
        rw [Nat.zero_add, hread k (le_refl k)] at hw
        have h := Option.some.inj hw
        rw [← h]
        exact hsent)]
  rw [List.range_eq_range']

/-- Witness for C6: slots 0–2 nonzero and slot 3 all-zero yield the
three-waypoint mission. -/
theorem download_sentinel_stop_witness :
    download_mission read3 ⟨[], false⟩ =
      (⟨(List.range 3).map dev3, true⟩, true) :=
  download_sentinel_stop read3 dev3 3 (by decide) (fun j _ => rfl) (by decide)
    (by decide) ⟨[], false⟩

/-- Claim C3 counterexample: loading a 61-entry mission file leaves the
Mission with 61 waypoints — `load_mission_from_file` enforces no capacity
check, so the 60-waypoint bound does not survive that operation. -/
theorem load_mission_capacity_cex :
    MAX_WAYPOINTS < (load_mission_from_file file61 ⟨[], false⟩).1.waypoints.length := by
  decide

/-- Claim C3 (amended): the waypoint count stays at most 60 across
`add_waypoint`, `insert_waypoint`, `remove_waypoint`, `clear_mission` and
`download_mission`, and adding to a Mission already holding 60 waypoints
fails and leaves the state unchanged; `load_mission_from_file`, by
contrast, performs no capacity check and can exceed 60. -/
theorem mission_capacity_bounded_amended :
    (∀ (st : MissionState) (wp : Waypoint), st.waypoints.length ≤ MAX_WAYPOINTS →
      (add_waypoint st wp).1.waypoints.length ≤ MAX_WAYPOINTS) ∧
    (∀ (st : MissionState) (idx : Nat) (wp : Waypoint),
      st.waypoints.length ≤ MAX_WAYPOINTS →
      (insert_waypoint st idx wp).1.waypoints.length ≤ MAX_WAYPOINTS) ∧
    (∀ (st : MissionState) (idx : Nat), st.waypoints.length ≤ MAX_WAYPOINTS →
      (remove_waypoint st idx).1.waypoints.length ≤ MAX_WAYPOINTS) ∧
    (∀ st : MissionState, (clear_mission st).1.waypoints.length ≤ MAX_WAYPOINTS) ∧
    (∀ (read : Nat → Option Waypoint) (st : MissionState),
      (download_mission read st).1.waypoints.length ≤ MAX_WAYPOINTS) ∧
    (∀ (st : MissionState) (wp : Waypoint),
      st.waypoints.length = MAX_WAYPOINTS → add_waypoint st wp = (st, false)) := by
  refine ⟨?_, ?_, ?_, ?_, ?_, ?_⟩
  · intro st wp hle
    unfold add_waypoint
    by_cases h1 : MAX_WAYPOINTS ≤ st.waypoints.length
    · rw [if_pos h1]; exact hle
    · rw [if_neg h1]
      by_cases h2 : (!(validate_coordinates wp.lat wp.lon wp.alt)) = true
      · rw [if_pos h2]; exact hle
      · rw [if_neg h2]
        show (st.waypoints ++ [wp]).length ≤ MAX_WAYPOINTS
        simp only [List.length_append, List.length_cons, List.length_nil]
        omega
  · intro st idx wp hle
    unfold insert_waypoint
    by_cases h0 : st.waypoints.length < idx
    · rw [if_pos h0]; exact hle
    · rw [if_neg h0]
      by_cases h1 : MAX_WAYPOINTS ≤ st.waypoints.length
      · rw [if_pos h1]; exact hle
      · rw [if_neg h1]
        by_cases h2 : (!(validate_coordinates wp.lat wp.lon wp.alt)) = true
        · rw [if_pos h2]; exact hle
        · rw [if_neg h2]
          show (st.waypoints.insertIdx idx wp).length ≤ MAX_WAYPOINTS
          have hlen : (st.waypoints.insertIdx idx wp).length =
              st.waypoints.length + 1 :=
            List.length_insertIdx idx st.waypoints (by omega)
          omega
  · intro st idx hle
    unfold remove_waypoint
    by_cases h : st.waypoints.length ≤ idx
    · rw [if_pos h]; exact hle
    · rw [if_neg h]
      show (st.waypoints.eraseIdx idx).length ≤ MAX_WAYPOINTS
      have h2 := List.length_eraseIdx_add_one
        (show idx < st.waypoints.length by omega)
      omega
  · intro st
    exact Nat.zero_le _
  · intro read st
    show (download_loop read 0 MAX_WAYPOINTS).length ≤ MAX_WAYPOINTS
    exact download_loop_length_le read MAX_WAYPOINTS 0
  · intro st wp h60
    unfold add_waypoint
    rw [if_pos (le_of_eq h60.symm)]

/-- Witness for the amended C3: adding to a full 60-waypoint Mission fails
and leaves it unchanged. -/
theorem mission_capacity_bounded_amended_witness :
    add_waypoint stFull wpA = (stFull, false) :=
  mission_capacity_bounded_amended.2.2.2.2.2 stFull wpA
    (by simp [stFull, MAX_WAYPOINTS])

/-- Claim C10: with validation on, when the post-write verification read
returns no waypoint at all, `set_waypoint` still reports success: the
tolerance comparison is only reached when a verification waypoint is
actually received, so an absent read counts as a verified write. -/
theorem set_waypoint_missing_verification_read_succeeds (read : Nat → Option Waypoint)
    (wp_id : Nat) (wp : Waypoint) (hid : wp_id < MAX_WAYPOINTS)
    (hco : validate_coordinates wp.lat wp.lon wp.alt = true)
    (hnone : read wp_id = none) :
    set_waypoint read wp_id wp true = (true, [(wp_id, wp)]) := by
  have h1 : ¬(MAX_WAYPOINTS ≤ wp_id) := by omega
  have hg : get_waypoint read wp_id = none := by
    unfold get_waypoint; rw [if_neg h1]; exact hnone
  rw [set_waypoint_eq, if_neg h1, if_neg (by simp [hco]), if_pos rfl, hg]

/-- Witness for C10: a transport that never answers the verification read
still lets `set_waypoint` succeed. -/
theorem set_waypoint_missing_verification_read_succeeds_witness :
    set_waypoint (fun _ => none) 2 wpA true = (true, [(2, wpA)]) :=
  set_waypoint_missing_verification_read_succeeds (fun _ => none) 2 wpA (by decide)
    (by decide) rfl
